import Mathlib

/-!
Verification of the EkTola campaign scheduling and delivery pipeline.

Shallow embedding of the Python sources:
  app/services/scheduler.py        (CampaignScheduler)
  app/tasks/campaign_tasks.py      (execute_campaign_run, send_campaign_message,
                                    check_pending_campaigns)
  app/services/template_service.py (MessageService.update_message_status,
                                    MessageService._update_campaign_run_stats,
                                    MessageService.send_campaign_message)
  app/services/whatsapp.py         (WhatsAppService.send_template_message)
  app/services/whatsapp_service.py (WhatsAppService.map_status_to_internal)
  app/routers/webhooks.py          (verify_webhook_signature, whatsapp_webhook)
  app/models/*.py                  (Campaign, CampaignRun, Message, Contact)

Datetimes are modelled as minutes since 0001-01-01T00:00 in the proleptic
Gregorian calendar (the calendar Python datetime uses); day 0 is a Monday,
so weekday t = (t / 1440) % 7 matches Python datetime.weekday().
Date and DateTime columns are embedded uniformly as these minute counts.
-/

namespace EkTola

/-! ## Calendar arithmetic (proleptic Gregorian) -/

/-- Days since 0001-01-01 of the civil date (y, m, d); standard era-based
Gregorian conversion, total on Nat inputs that denote real dates. -/
def daysFromCivil (y m d : Nat) : Nat :=
  let y2 := if m ≤ 2 then y - 1 else y
  let era := y2 / 400
  let yoe := y2 % 400
  let mp := (m + 9) % 12
  let doy := (153 * mp + 2) / 5 + d - 1
  let doe := yoe * 365 + yoe / 4 - yoe / 100 + doy
  era * 146097 + doe - 306

/-- Civil date (y, m, d) of a day count since 0001-01-01. -/
def civilFromDays (n : Nat) : Nat × Nat × Nat :=
  let z := n + 306
  let era := z / 146097
  let doe := z % 146097
  let yoe := (doe - doe / 1460 + doe / 36524 - doe / 146096) / 365
  let y := yoe + era * 400
  let doy := doe - (365 * yoe + yoe / 4 - yoe / 100)
  let mp := (5 * doy + 2) / 153
  let d := doy - (153 * mp + 2) / 5 + 1
  let m := if mp < 10 then mp + 3 else mp - 9
  (if m ≤ 2 then y + 1 else y, m, d)

/-- now.replace(hour=0, minute=0, second=0, microsecond=0) -/
def startOfDay (t : Nat) : Nat := t - t % 1440

/-- Python datetime.weekday(): Monday = 0.  Day 0 (0001-01-01) is a Monday. -/
def weekday (t : Nat) : Nat := (t / 1440) % 7

/-- (now - timedelta(days=now.weekday())).replace(hour=0, ...) -/
def startOfWeek (t : Nat) : Nat := startOfDay (t - 1440 * weekday t)

/-- now.replace(day=1, hour=0, minute=0, second=0, microsecond=0) -/
def startOfMonth (t : Nat) : Nat :=
  let c := civilFromDays (t / 1440)
  1440 * daysFromCivil c.1 c.2.1 1

/-! ## Enumerations (app/utils/enums.py)

Note: enums.py names the one-time recurrence value ONE_TIME, while
scheduler.py and campaign_tasks.py reference RecurrenceType.ONCE; the
constructor here is named ONCE after the symbol the scheduling code uses.
CampaignRun.status is a String column documented as
PENDING / RUNNING / COMPLETED / FAILED (app/models/campaign.py line 69);
RunStatus models exactly those values. -/

inductive CampaignStatus where
  | DRAFT | ACTIVE | PAUSED | COMPLETED
deriving DecidableEq, Repr

inductive MessageStatus where
  | QUEUED | SENT | DELIVERED | READ | FAILED
deriving DecidableEq, Repr

inductive RecurrenceType where
  | DAILY | WEEKLY | MONTHLY | ONCE
deriving DecidableEq, Repr

inductive SegmentType where
  | GOLD_LOAN | GOLD_SIP | MARKETING
deriving DecidableEq, Repr

inductive RunStatus where
  | PENDING | RUNNING | COMPLETED | FAILED
deriving DecidableEq, Repr

/-! ## Data model (app/models) -/

structure Campaign where
  id : Nat
  jeweller_id : Nat := 0
  template_id : Nat := 0
  status : CampaignStatus
  recurrence_type : RecurrenceType
  start_date : Nat
  end_date : Option Nat := none
  target_segment : Option SegmentType := none
deriving DecidableEq, Repr

structure CampaignRun where
  id : Nat
  campaign_id : Nat
  scheduled_at : Nat
  started_at : Option Nat := none
  completed_at : Option Nat := none
  status : RunStatus
  messages_delivered : Nat := 0
  messages_read : Nat := 0
  messages_failed : Nat := 0
  updated_at : Nat := 0
deriving DecidableEq, Repr

structure Message where
  id : Nat
  jeweller_id : Nat := 0
  contact_id : Nat := 0
  campaign_run_id : Option Nat := none
  whatsapp_message_id : Option String := none
  status : MessageStatus
  sent_at : Option Nat := none
  delivered_at : Option Nat := none
  read_at : Option Nat := none
  failed_at : Option Nat := none
  failure_reason : Option String := none
  retry_count : Nat := 0
  updated_at : Nat := 0
deriving DecidableEq, Repr

structure Contact where
  id : Nat
  jeweller_id : Nat
  phone_number : String := ""
  segment : SegmentType
  opted_out : Bool := false
  is_deleted : Bool := false
deriving DecidableEq, Repr

structure WebhookEvent where
  event_type : String := "message_status"
  payload : String := ""
  jeweller_id : Option Nat := none
  processed : Bool := false
  error_message : Option String := none
  received_at : Nat := 0
  processed_at : Option Nat := none
deriving DecidableEq, Repr

/-- The persisted state shared by dispatcher, reconciler and webhook layer. -/
structure DB where
  messages : List Message
  runs : List CampaignRun
  events : List WebhookEvent := []
deriving DecidableEq, Repr

/-- ORM-style in-place mutation of the first row matching a predicate. -/
def updateFirst (p : α → Bool) (f : α → α) : List α → List α
  | [] => []
  | x :: xs => if p x then f x :: xs else x :: updateFirst p f xs

/-- Result dict of WhatsAppService.send_template_message (app/services/whatsapp.py). -/
structure SendResult where
  success : Bool
  message_id : Option String := none
  error : Option String := none
  error_code : Option Nat := none
  phone_number : String := ""
deriving DecidableEq, Repr

/-! ## MessageService (app/services/template_service.py) and
    WhatsAppService.map_status_to_internal (app/services/whatsapp_service.py) -/

namespace MessageService

/-- Python str.lower(), character by character (the webhook statuses are
ASCII). -/
def pyLower (s : String) : String := String.mk (s.data.map Char.toLower)

/-- WhatsAppService.map_status_to_internal: dict lookup on the lowercased
external status with default MessageStatus.QUEUED. -/
def map_status_to_internal (wa_status : String) : MessageStatus :=
  let l := pyLower wa_status
  if l = "sent" then .SENT
  else if l = "delivered" then .DELIVERED
  else if l = "read" then .READ
  else if l = "failed" then .FAILED
  else .QUEUED

/-- The row predicate of the query
Message.whatsapp_message_id == whatsapp_message_id; a None argument matches
rows whose whatsapp_message_id IS NULL, as in SQLAlchemy. -/
def matchesWamid (wamid : Option String) (m : Message) : Bool :=
  decide (m.whatsapp_message_id = wamid)

/-- The per-row mutation performed by update_message_status once the message
is found: overwrite status with the mapped value, stamp the per-status
timestamp with the callback timestamp (or now when absent), touch updated_at. -/
def applyStatus (status : String) (timestamp : Option Nat) (now : Nat)
    (m : Message) : Message :=
  let st := map_status_to_internal status
  let t := timestamp.getD now
  let m1 := { m with status := st }
  match st with
  | .DELIVERED => { m1 with delivered_at := some t, updated_at := now }
  | .READ => { m1 with read_at := some t, updated_at := now }
  | .FAILED => { m1 with failed_at := some t, updated_at := now }
  | _ => { m1 with updated_at := now }

/-- sum(1 for m in messages if m.status == st) over the rows of one run. -/
def countStatus (msgs : List Message) (rid : Nat) (st : MessageStatus) : Nat :=
  (msgs.filter (fun m => decide (m.campaign_run_id = some rid ∧ m.status = st))).length

/-- The run-row write of _update_campaign_run_stats: the three recounted
aggregate counters, plus the touched updated_at column. -/
def recountUpd (msgs : List Message) (rid now : Nat) (r : CampaignRun) : CampaignRun :=
  { r with messages_delivered := countStatus msgs rid .DELIVERED,
           messages_read := countStatus msgs rid .READ,
           messages_failed := countStatus msgs rid .FAILED,
           updated_at := now }

/-- MessageService._update_campaign_run_stats: full recount of the DELIVERED,
READ and FAILED messages of the run, written onto the run row. -/
def update_campaign_run_stats (db : DB) (rid : Nat) (now : Nat) : DB :=
  match db.runs.find? (fun r => decide (r.id = rid)) with
  | none => db
  | some _ =>
    { db with runs := updateFirst (fun r => decide (r.id = rid)) (recountUpd db.messages rid now) db.runs }

/-- MessageService.update_message_status: look the message up by provider id,
overwrite its status unconditionally, then recount the owning run when
message.campaign_run_id is truthy (not NULL and not 0). -/
def update_message_status (db : DB) (wamid : Option String) (status : String)
    (timestamp : Option Nat) (now : Nat) : Bool × DB :=
  match db.messages.find? (matchesWamid wamid) with
  | none => (false, db)
  | some m =>
    let db1 := { db with
      messages := updateFirst (matchesWamid wamid) (applyStatus status timestamp now) db.messages }
    let rid := m.campaign_run_id.getD 0
    (true, if rid ≠ 0 then update_campaign_run_stats db1 rid now else db1)

/-- MessageService.send_campaign_message, message-record part (dispatcher send
outcome): on provider success mark SENT and store the provider id; on provider
failure mark FAILED with the failure reason and bump retry_count.  It performs
no run-counter update. -/
def send_campaign_message_update (db : DB) (mid : Nat) (result : SendResult)
    (now : Nat) : DB :=
  match db.messages.find? (fun m => decide (m.id = mid)) with
  | none => db
  | some _ =>
    let upd := fun (m : Message) =>
      if result.success then
        { m with whatsapp_message_id := result.message_id, status := .SENT,
                 sent_at := some now, updated_at := now }
      else
        { m with status := .FAILED, failed_at := some now,
                 failure_reason := result.error,
                 retry_count := m.retry_count + 1, updated_at := now }
    { db with messages := updateFirst (fun m => decide (m.id = mid)) upd db.messages }

end MessageService

/-! ## Webhook layer (app/routers/webhooks.py) -/

namespace Webhooks

/-- verify_webhook_signature.  The HMAC-SHA256 hex digest is an external
primitive, passed in as hmacHex (secret, payload to digest).  The app secret is
falsy (unset or empty) exactly when verification is skipped. -/
def verify_webhook_signature (hmacHex : String → String → String)
    (app_secret : Option String) (payload : String) (signature : String) : Bool :=
  if app_secret.getD "" = "" then
    true
  else if signature = "" ∨ ¬ signature.startsWith "sha256=" then
    false
  else
    ("sha256=" ++ hmacHex (app_secret.getD "") payload) = signature

/-- One element of value["statuses"] in the webhook payload; timestamp is the
parsed epoch value (the code substitutes utcnow on a malformed timestamp, which
is subsumed by this Option).  Each element of errors is the error message. -/
structure StatusUpdate where
  id : Option String := none
  status : String := ""
  timestamp : Option Nat := none
  errors : List String := []
deriving DecidableEq, Repr

structure Change where
  field : String := "messages"
  statuses : List StatusUpdate := []
deriving DecidableEq, Repr

structure Entry where
  changes : List Change := []
deriving DecidableEq, Repr

structure Payload where
  entries : List Entry := []
deriving DecidableEq, Repr

/-- Body of the statuses loop in whatsapp_webhook: apply
update_message_status, capture jeweller_id onto the webhook event when the
message was found, and on "failed" with errors write the first error message
onto the message row. -/
def handle_status_update (st : DB × WebhookEvent) (su : StatusUpdate)
    (now : Nat) : DB × WebhookEvent :=
  let db := st.1
  let ev := st.2
  let r := MessageService.update_message_status db su.id su.status su.timestamp now
  let db1 := r.2
  let ev1 :=
    if r.1 then
      match db1.messages.find? (MessageService.matchesWamid su.id) with
      | some m => { ev with jeweller_id := some m.jeweller_id }
      | none => ev
    else ev
  let db2 :=
    if su.status = "failed" then
      match su.errors.head? with
      | some emsg =>
        let msgs := updateFirst (MessageService.matchesWamid su.id)
          (fun m => { m with failure_reason := some emsg, updated_at := now })
          db1.messages
        { db1 with messages := msgs }
      | none => db1
    else db1
  (db2, ev1)

/-- whatsapp_webhook: verify the signature on the raw body first; on failure
answer 401 leaving the database untouched; otherwise record the webhook event
and process every status update of every "messages" change. -/
def whatsapp_webhook (hmacHex : String → String → String)
    (app_secret : Option String) (db : DB) (raw_payload : String)
    (signature : String) (payload : Payload) (now : Nat) : Nat × DB :=
  if verify_webhook_signature hmacHex app_secret raw_payload signature then
    let ev0 : WebhookEvent :=
      { event_type := "message_status", payload := raw_payload, received_at := now }
    let step := fun (st : DB × WebhookEvent) (e : Entry) =>
      e.changes.foldl (fun st ch =>
        if ch.field = "messages" then
          ch.statuses.foldl (fun st su => handle_status_update st su now) st
        else st) st
    let res := payload.entries.foldl step (db, ev0)
    let ev2 := { res.2 with processed := true, processed_at := some now }
    (200, { res.1 with events := res.1.events ++ [ev2] })
  else
    (401, db)

end Webhooks

/-! ## CampaignScheduler (app/services/scheduler.py) -/

namespace Scheduler

/-- Mutable state visible to the scheduler: campaigns and campaign runs. -/
structure SchedState where
  campaigns : List Campaign
  runs : List CampaignRun
deriving DecidableEq, Repr

/-- The canonical period start computed by _has_run_in_current_period; the
else branch (one-time recurrence) yields no period. -/
def periodStart (rt : RecurrenceType) (now : Nat) : Option Nat :=
  match rt with
  | .DAILY => some (startOfDay now)
  | .WEEKLY => some (startOfWeek now)
  | .MONTHLY => some (startOfMonth now)
  | .ONCE => none

/-- CampaignScheduler._has_run_in_current_period: an existing run of the
campaign with scheduled_at >= period_start and status in
[COMPLETED, RUNNING]; False for one-time recurrence. -/
def has_run_in_current_period (runs : List CampaignRun) (c : Campaign)
    (now : Nat) : Bool :=
  match periodStart c.recurrence_type now with
  | none => false
  | some ps =>
    runs.any (fun r => decide (r.campaign_id = c.id ∧ ps ≤ r.scheduled_at ∧
      (r.status = .COMPLETED ∨ r.status = .RUNNING)))

/-- CampaignScheduler._should_execute_campaign: expired campaigns are marked
COMPLETED and not executed; one-time campaigns execute while no COMPLETED or
RUNNING run exists; recurring campaigns execute while no run exists in the
current period.  Returns the decision and the possibly mutated campaign row. -/
def should_execute_campaign (runs : List CampaignRun) (c : Campaign)
    (now : Nat) : Bool × Campaign :=
  if (match c.end_date with | some e => decide (e < now) | none => false) then
    (false, { c with status := .COMPLETED })
  else
    match c.recurrence_type with
    | .ONCE =>
      (!(runs.any (fun r => decide (r.campaign_id = c.id ∧
          (r.status = .COMPLETED ∨ r.status = .RUNNING)))), c)
    | _ => (!(has_run_in_current_period runs c now), c)

/-- CampaignScheduler.check_and_trigger_campaigns: snapshot the ACTIVE
campaigns whose start has passed, and for each one that should execute insert
a PENDING CampaignRun with scheduled_at = now (wall clock).  Returns the new
state and the triggered count. -/
def check_and_trigger_campaigns (s : SchedState) (now : Nat) : SchedState × Nat :=
  let selected := s.campaigns.filter
    (fun c => decide (c.status = .ACTIVE ∧ c.start_date ≤ now))
  selected.foldl (fun acc c =>
    let st := acc.1
    let dec := should_execute_campaign st.runs c now
    let campaigns1 := updateFirst (fun k => decide (k.id = c.id)) (fun _ => dec.2) st.campaigns
    if dec.1 then
      ({ campaigns := campaigns1,
         runs := st.runs ++ [{ id := st.runs.length + 1, campaign_id := c.id,
                               scheduled_at := now, status := .PENDING }] },
       acc.2 + 1)
    else
      ({ campaigns := campaigns1, runs := st.runs }, acc.2)) (s, 0)

end Scheduler

/-! ## Celery tasks (app/tasks/campaign_tasks.py) -/

namespace CampaignTasks

open Scheduler

/-- Decision of the check_pending_campaigns loop body for one campaign: for
one-time campaigns any existing run of the campaign blocks; for recurring
campaigns any run with scheduled_at >= period start blocks (no status
filter); no end_date check is performed at all. -/
def check_pending_should (runs : List CampaignRun) (c : Campaign)
    (now : Nat) : Bool :=
  match c.recurrence_type with
  | .ONCE =>
    (runs.find? (fun r => decide (r.campaign_id = c.id))).isNone
      && decide (c.start_date ≤ now)
  | _ =>
    match periodStart c.recurrence_type now with
    | some ps => !(runs.any (fun r => decide (r.campaign_id = c.id ∧ ps ≤ r.scheduled_at)))
    | none => false

/-- check_pending_campaigns: snapshot the ACTIVE campaigns whose start has
passed, and for each campaign that should run insert a PENDING CampaignRun
with scheduled_at = now.  Campaign rows are never mutated here. -/
def check_pending_campaigns (s : SchedState) (now : Nat) : SchedState :=
  let selected := s.campaigns.filter
    (fun c => decide (c.status = .ACTIVE ∧ c.start_date ≤ now))
  selected.foldl (fun st c =>
    if check_pending_should st.runs c now then
      { st with runs := st.runs ++ [{ id := st.runs.length + 1, campaign_id := c.id,
                                      scheduled_at := now, status := .PENDING }] }
    else st) s

/-- Contact query of execute_campaign_run: tenant scoped, not soft-deleted,
segment filtered when the campaign carries a segment; the opted_out flag is
not consulted.  (The code reads campaign.target_segment; the Campaign model
names the column sub_segment.) -/
def get_target_contacts (contacts : List Contact) (c : Campaign) : List Contact :=
  let q := contacts.filter
    (fun k => decide (k.jeweller_id = c.jeweller_id ∧ k.is_deleted = false))
  match c.target_segment with
  | some seg => q.filter (fun k => decide (k.segment = seg))
  | none => q

/-- Outcome of the HTTP POST performed by
WhatsAppService.send_template_message (app/services/whatsapp.py). -/
inductive HttpOutcome where
  | success (message_id : Option String)
  | statusError (status_code : Nat) (error_msg : String) (error_code : Option Nat)
  | exception (msg : String)
deriving DecidableEq, Repr

/-- WhatsAppService.send_template_message: unconfigured credentials yield a
mock success; httpx.HTTPStatusError and any other exception are caught and
returned as unsuccessful result dicts, never re-raised. -/
def send_template_message (configured : Bool) (phone_number template_name : String)
    (outcome : HttpOutcome) : SendResult :=
  if !configured then
    { success := true,
      message_id := some ("dev_" ++ phone_number ++ "_" ++ template_name),
      phone_number := phone_number }
  else
    match outcome with
    | .success mid => { success := true, message_id := mid, phone_number := phone_number }
    | .statusError _ msg ec =>
      { success := false, error := some msg, error_code := ec, phone_number := phone_number }
    | .exception msg => { success := false, error := some msg, phone_number := phone_number }

/-- Result of one invocation of the send_campaign_message Celery task:
either the task returns with the final message row, or it marks the row and
schedules a Celery retry (self.retry) with the given countdown and
max_retries. -/
inductive TaskOutcome where
  | done (m : Message)
  | retryScheduled (m : Message) (countdown : Nat) (max_retries : Nat)
deriving DecidableEq, Repr

/-- send_campaign_message task, non-exception path: missing related rows mark
FAILED and return; a successful provider result marks SENT and stores the
provider id; an unsuccessful provider result of any classification marks
FAILED immediately with the error (default "Unknown error") and returns with
no retry.  The intermediate SENDING write is elided (MessageStatus has no
SENDING member; the code writes message.error_message, whose column is
failure_reason). -/
def send_campaign_message (m : Message) (deps_ok : Bool) (result : SendResult)
    (now : Nat) : TaskOutcome :=
  if !deps_ok then
    .done { m with status := .FAILED,
                   failure_reason := some "Missing campaign, contact, or template data",
                   updated_at := now }
  else if result.success then
    .done { m with status := .SENT, whatsapp_message_id := result.message_id,
                   sent_at := some now, updated_at := now }
  else
    .done { m with status := .FAILED,
                   failure_reason := some (result.error.getD "Unknown error"),
                   updated_at := now }

/-- send_campaign_message task, exception path: the message is marked FAILED
with the exception text and self.retry is issued with the constant
countdown=60 and max_retries=3. -/
def send_campaign_message_exn (m : Message) (e : String) (now : Nat) : TaskOutcome :=
  .retryScheduled { m with status := .FAILED, failure_reason := some e,
                           updated_at := now } 60 3

end CampaignTasks

/-! ## Observation views used to state idempotence and counter consistency -/

/-- The message state named by the idempotence property: status, the
per-status timestamps and the failure reason. -/
def msgView (m : Message) :
    MessageStatus × Option Nat × Option Nat × Option Nat × Option String :=
  (m.status, m.delivered_at, m.read_at, m.failed_at, m.failure_reason)

/-- The run aggregate counters named by the idempotence property. -/
def runView (r : CampaignRun) : Nat × Nat × Nat :=
  (r.messages_delivered, r.messages_read, r.messages_failed)

/-- The message fields the run recount depends on. -/
def msgCountView (m : Message) : Option Nat × MessageStatus :=
  (m.campaign_run_id, m.status)

/-! ## Example fixtures for the concrete evaluations -/

/-- The CampaignRun row inserted by both scheduler entry points: PENDING,
scheduled_at = the evaluation wall-clock time, id from the autoincrement
position len + 1. -/
def newRun (cid sched len : Nat) : CampaignRun :=
  { id := len + 1, campaign_id := cid, scheduled_at := sched, status := .PENDING }

/-- An ACTIVE daily campaign that started at the epoch. -/
def dailyCampaign : Campaign :=
  { id := 1, status := .ACTIVE, recurrence_type := .DAILY, start_date := 0 }

/-- A RUNNING run of campaign 1 created at minute 600. -/
def runningRun : CampaignRun :=
  { id := 1, campaign_id := 1, scheduled_at := 600, status := .RUNNING }

/-- The same campaign with an end date already in the past at minute 2000. -/
def expiredCampaign : Campaign :=
  { id := 1, status := .ACTIVE, recurrence_type := .DAILY, start_date := 0,
    end_date := some 0 }

/-- A message already READ, identified by provider id w1. -/
def readMessage : Message :=
  { id := 1, whatsapp_message_id := some "w1", status := .READ }

/-- A QUEUED message belonging to campaign run 1. -/
def queuedRunMessage : Message :=
  { id := 1, campaign_run_id := some 1, status := .QUEUED }

/-- Campaign run 1 with all aggregate counters at zero. -/
def zeroCountRun : CampaignRun :=
  { id := 1, campaign_id := 1, scheduled_at := 0, status := .RUNNING }

/-- A QUEUED message of run 1 with provider id w, as seen by the reconciler. -/
def callbackMessage : Message :=
  { id := 1, campaign_run_id := some 1, whatsapp_message_id := some "w",
    status := .QUEUED }

/-- Reconciler database: one message of run 1 and the run itself. -/
def reconDB : DB := { messages := [callbackMessage], runs := [zeroCountRun] }

/-- An opted-out, not deleted MARKETING contact of jeweller 1. -/
def optedOutContact : Contact :=
  { id := 1, jeweller_id := 1, segment := .MARKETING, opted_out := true }

/-- A MARKETING campaign of jeweller 1 targeting the MARKETING segment. -/
def marketingCampaign : Campaign :=
  { id := 1, jeweller_id := 1, status := .ACTIVE, recurrence_type := .DAILY,
    start_date := 0, target_segment := some .MARKETING }

/-! ## Helper lemmas about updateFirst and the service primitives -/

theorem find?_updateFirst (p : α → Bool) (f : α → α) (hf : ∀ x, p (f x) = p x)
    (l : List α) : (updateFirst p f l).find? p = (l.find? p).map f := by
  induction l with
  | nil => rfl
  | cons x xs ih =>
    by_cases hx : p x
    · simp [updateFirst, hx, List.find?_cons_of_pos, hf]
    · simp [updateFirst, hx, List.find?_cons_of_neg, ih]

theorem updateFirst_updateFirst (p : α → Bool) (f g : α → α)
    (hg : ∀ x, p (g x) = p x) (l : List α) :
    updateFirst p f (updateFirst p g l) = updateFirst p (fun x => f (g x)) l := by
  induction l with
  | nil => rfl
  | cons x xs ih =>
    by_cases hx : p x
    · simp [updateFirst, hx, hg]
    · simp [updateFirst, hx, ih]

theorem map_updateFirst_congr (v : α → β) (p : α → Bool) (f g : α → α)
    (l : List α) (h : ∀ x, v (f x) = v (g x)) :
    (updateFirst p f l).map v = (updateFirst p g l).map v := by
  induction l with
  | nil => rfl
  | cons x xs ih =>
    by_cases hx : p x
    · simp [updateFirst, hx, h]
    · simp [updateFirst, hx, ih]

namespace MessageService

theorem applyStatus_status (s : String) (ts : Option Nat) (now : Nat)
    (m : Message) : (applyStatus s ts now m).status = map_status_to_internal s := by
  unfold applyStatus
  rcases map_status_to_internal s <;> rfl

theorem applyStatus_wamid (s : String) (ts : Option Nat) (now : Nat)
    (m : Message) :
    (applyStatus s ts now m).whatsapp_message_id = m.whatsapp_message_id := by
  unfold applyStatus
  rcases map_status_to_internal s <;> rfl

theorem applyStatus_runid (s : String) (ts : Option Nat) (now : Nat)
    (m : Message) :
    (applyStatus s ts now m).campaign_run_id = m.campaign_run_id := by
  unfold applyStatus
  rcases map_status_to_internal s <;> rfl

theorem matchesWamid_applyStatus (w : Option String) (s : String)
    (ts : Option Nat) (now : Nat) (m : Message) :
    matchesWamid w (applyStatus s ts now m) = matchesWamid w m := by
  unfold matchesWamid
  rw [applyStatus_wamid]

theorem stats_messages (db : DB) (rid now : Nat) :
    (update_campaign_run_stats db rid now).messages = db.messages := by
  unfold update_campaign_run_stats
  cases db.runs.find? (fun r => decide (r.id = rid)) <;> rfl

theorem countStatus_congr (l1 l2 : List Message)
    (h : l1.map msgCountView = l2.map msgCountView)
    (rid : Nat) (st : MessageStatus) :
    countStatus l1 rid st = countStatus l2 rid st := by
  induction l1 generalizing l2 with
  | nil =>
    cases l2 with
    | nil => rfl
    | cons b bs => simp at h
  | cons a as ih =>
    cases l2 with
    | nil => simp at h
    | cons b bs =>
      simp only [List.map_cons, List.cons.injEq] at h
      obtain ⟨h1, h2⟩ := h
      have hr : a.campaign_run_id = b.campaign_run_id := congrArg Prod.fst h1
      have hs : a.status = b.status := congrArg Prod.snd h1
      have hih := ih bs h2
      simp only [countStatus, List.filter_cons, hr, hs] at hih ⊢
      split
      · simpa [countStatus] using congrArg Nat.succ hih
      · exact hih

theorem update_messages (db : DB) (wamid : Option String) (s : String)
    (ts : Option Nat) (now : Nat) :
    (update_message_status db wamid s ts now).2.messages
      = match db.messages.find? (matchesWamid wamid) with
        | none => db.messages
        | some _ => updateFirst (matchesWamid wamid) (applyStatus s ts now) db.messages := by
  unfold update_message_status
  cases hf : db.messages.find? (matchesWamid wamid) with
  | none => rfl
  | some m =>
    by_cases hr : m.campaign_run_id.getD 0 ≠ 0
    · simp [hr, stats_messages]
    · simp [hr]

theorem update_messages_found (db : DB) (wamid : Option String) (s : String)
    (ts : Option Nat) (now : Nat) (m : Message)
    (hfind : db.messages.find? (matchesWamid wamid) = some m) :
    (update_message_status db wamid s ts now).2.messages
      = updateFirst (matchesWamid wamid) (applyStatus s ts now) db.messages := by
  rw [update_messages, hfind]

theorem update_found (db : DB) (wamid : Option String) (s : String)
    (ts : Option Nat) (now : Nat) (m : Message)
    (hfind : db.messages.find? (matchesWamid wamid) = some m) :
    update_message_status db wamid s ts now
      = (true,
         if m.campaign_run_id.getD 0 ≠ 0 then
           update_campaign_run_stats
             { db with messages :=
                 updateFirst (matchesWamid wamid) (applyStatus s ts now) db.messages }
             (m.campaign_run_id.getD 0) now
         else
           { db with messages :=
               updateFirst (matchesWamid wamid) (applyStatus s ts now) db.messages }) := by
  unfold update_message_status
  rw [hfind]

theorem update_notfound (db : DB) (wamid : Option String) (s : String)
    (ts : Option Nat) (now : Nat)
    (hfind : db.messages.find? (matchesWamid wamid) = none) :
    update_message_status db wamid s ts now = (false, db) := by
  unfold update_message_status
  rw [hfind]

theorem stats_found (db : DB) (rid now : Nat) (r : CampaignRun)
    (hq : db.runs.find? (fun r => decide (r.id = rid)) = some r) :
    update_campaign_run_stats db rid now
      = { db with runs := updateFirst (fun r => decide (r.id = rid)) (recountUpd db.messages rid now) db.runs } := by
  unfold update_campaign_run_stats
  rw [hq]

theorem stats_notfound (db : DB) (rid now : Nat)
    (hq : db.runs.find? (fun r => decide (r.id = rid)) = none) :
    update_campaign_run_stats db rid now = db := by
  unfold update_campaign_run_stats
  rw [hq]

theorem update_found_mk (l : List Message) (runs : List CampaignRun)
    (evs : List WebhookEvent) (wamid : Option String) (s : String)
    (ts : Option Nat) (now : Nat) (m : Message)
    (hfind : l.find? (matchesWamid wamid) = some m) :
    update_message_status ⟨l, runs, evs⟩ wamid s ts now
      = (true,
         if m.campaign_run_id.getD 0 ≠ 0 then
           update_campaign_run_stats
             ⟨updateFirst (matchesWamid wamid) (applyStatus s ts now) l, runs, evs⟩
             (m.campaign_run_id.getD 0) now
         else
           ⟨updateFirst (matchesWamid wamid) (applyStatus s ts now) l, runs, evs⟩) := by
  unfold update_message_status
  dsimp only
  rw [hfind]

theorem update_notfound_mk (l : List Message) (runs : List CampaignRun)
    (evs : List WebhookEvent) (wamid : Option String) (s : String)
    (ts : Option Nat) (now : Nat)
    (hfind : l.find? (matchesWamid wamid) = none) :
    update_message_status ⟨l, runs, evs⟩ wamid s ts now = (false, ⟨l, runs, evs⟩) := by
  unfold update_message_status
  dsimp only
  rw [hfind]

theorem stats_found_mk (l : List Message) (runs : List CampaignRun)
    (evs : List WebhookEvent) (rid now : Nat) (r : CampaignRun)
    (hq : runs.find? (fun x => decide (x.id = rid)) = some r) :
    update_campaign_run_stats ⟨l, runs, evs⟩ rid now
      = ⟨l, updateFirst (fun x => decide (x.id = rid)) (recountUpd l rid now) runs, evs⟩ := by
  unfold update_campaign_run_stats
  dsimp only
  rw [hq]

theorem stats_notfound_mk (l : List Message) (runs : List CampaignRun)
    (evs : List WebhookEvent) (rid now : Nat)
    (hq : runs.find? (fun x => decide (x.id = rid)) = none) :
    update_campaign_run_stats ⟨l, runs, evs⟩ rid now = ⟨l, runs, evs⟩ := by
  unfold update_campaign_run_stats
  dsimp only
  rw [hq]

theorem msgView_applyStatus_twice (s : String) (t now1 now2 : Nat) (x : Message) :
    msgView (applyStatus s (some t) now2 (applyStatus s (some t) now1 x))
      = msgView (applyStatus s (some t) now1 x) := by
  unfold applyStatus msgView
  rcases map_status_to_internal s <;> simp

theorem msgCountView_applyStatus_twice (s : String) (ts : Option Nat)
    (now1 now2 : Nat) (x : Message) :
    msgCountView (applyStatus s ts now2 (applyStatus s ts now1 x))
      = msgCountView (applyStatus s ts now1 x) := by
  unfold msgCountView
  rw [applyStatus_runid, applyStatus_status, applyStatus_status]

end MessageService

section ClaimTheorems

open MessageService Scheduler CampaignTasks Webhooks

/-- Claim C2, counterexample: a message already READ, on receiving a
"delivered" callback, is moved back to DELIVERED — the reconciler does not
keep the status non-decreasing along QUEUED < SENT < DELIVERED < READ. -/
theorem update_message_status_regresses_read_to_delivered :
    readMessage.status = .READ
    ∧ ((update_message_status { messages := [readMessage], runs := [] }
          (some "w1") "delivered" (some 5) 6).2.messages.map Message.status
        = [.DELIVERED]) := by
  exact ⟨rfl, by decide⟩

/-- Claim C2 (amended): update_message_status overwrites the found message
status with the mapped incoming status unconditionally, whatever the current
status is — so transitions can move backward and FAILED can be exited. -/
theorem update_message_status_overwrites
    (db : DB) (wamid : Option String) (s : String) (ts : Option Nat) (now : Nat)
    (m : Message)
    (hfind : db.messages.find? (matchesWamid wamid) = some m) :
    ((update_message_status db wamid s ts now).2.messages.find?
        (matchesWamid wamid)).map Message.status
      = some (map_status_to_internal s) := by
  rw [update_messages_found db wamid s ts now m hfind]
  rw [find?_updateFirst _ _ (fun x => matchesWamid_applyStatus wamid s ts now x)]
  rw [hfind]
  simp [applyStatus_status]

/-- Claim C2, witness of the amended theorem at a concrete message. -/
theorem update_message_status_overwrites_witness :
    (DB.messages { messages := [readMessage], runs := [] }).find?
        (matchesWamid (some "w1")) = some readMessage
    ∧ ((update_message_status { messages := [readMessage], runs := [] }
          (some "w1") "read" (some 5) 6).2.messages.find?
        (matchesWamid (some "w1"))).map Message.status
      = some (map_status_to_internal "read") :=
  ⟨rfl, update_message_status_overwrites
    { messages := [readMessage], runs := [] } (some "w1") "read" (some 5) 6
    readMessage rfl⟩

/-- Claim C3 (confirmed): applying the identical callback (same provider
message id, same status string, same carried timestamp) twice yields the same
message state (status, per-status timestamps, failure reason) and the same run
aggregate counters as applying it once. -/
theorem update_message_status_idempotent
    (db : DB) (wamid : Option String) (s : String) (t now1 now2 : Nat) :
    ((update_message_status (update_message_status db wamid s (some t) now1).2
        wamid s (some t) now2).2.messages.map msgView
      = (update_message_status db wamid s (some t) now1).2.messages.map msgView)
    ∧ ((update_message_status (update_message_status db wamid s (some t) now1).2
        wamid s (some t) now2).2.runs.map runView
      = (update_message_status db wamid s (some t) now1).2.runs.map runView) := by
  obtain ⟨l, runs, evs⟩ := db
  cases hfind : l.find? (matchesWamid wamid) with
  | none =>
    rw [update_notfound_mk l runs evs wamid s (some t) now1 hfind]
    rw [update_notfound_mk l runs evs wamid s (some t) now2 hfind]
    exact ⟨rfl, rfl⟩
  | some m =>
    have hp1 : ∀ x, matchesWamid wamid (applyStatus s (some t) now1 x)
        = matchesWamid wamid x := fun x => matchesWamid_applyStatus wamid s (some t) now1 x
    have hfind1 : (updateFirst (matchesWamid wamid) (applyStatus s (some t) now1)
        l).find? (matchesWamid wamid)
        = some (applyStatus s (some t) now1 m) := by
      rw [find?_updateFirst _ _ hp1, hfind]
      rfl
    have hmm : (updateFirst (matchesWamid wamid) (applyStatus s (some t) now2)
          (updateFirst (matchesWamid wamid) (applyStatus s (some t) now1) l))
        = updateFirst (matchesWamid wamid)
            (fun x => applyStatus s (some t) now2 (applyStatus s (some t) now1 x)) l :=
      updateFirst_updateFirst _ _ _ hp1 l
    have hMview : (updateFirst (matchesWamid wamid) (applyStatus s (some t) now2)
          (updateFirst (matchesWamid wamid) (applyStatus s (some t) now1) l)).map msgView
        = (updateFirst (matchesWamid wamid) (applyStatus s (some t) now1) l).map msgView := by
      rw [hmm]
      exact map_updateFirst_congr msgView _ _ _ l
        (fun x => msgView_applyStatus_twice s t now1 now2 x)
    have hMcnt : ∀ rid st, countStatus (updateFirst (matchesWamid wamid)
          (applyStatus s (some t) now2)
          (updateFirst (matchesWamid wamid) (applyStatus s (some t) now1) l)) rid st
        = countStatus (updateFirst (matchesWamid wamid) (applyStatus s (some t) now1) l)
            rid st := by
      intro rid st
      rw [hmm]
      exact countStatus_congr _ _
        (map_updateFirst_congr msgCountView _ _ _ l
          (fun x => msgCountView_applyStatus_twice s (some t) now1 now2 x)) rid st
    by_cases hrid : m.campaign_run_id.getD 0 ≠ 0
    · have honce : (update_message_status ⟨l, runs, evs⟩ wamid s (some t) now1).2
          = update_campaign_run_stats
              ⟨updateFirst (matchesWamid wamid) (applyStatus s (some t) now1) l,
               runs, evs⟩ (m.campaign_run_id.getD 0) now1 := by
        rw [update_found_mk l runs evs wamid s (some t) now1 m hfind, if_pos hrid]
      cases hq : runs.find? (fun x => decide (x.id = m.campaign_run_id.getD 0)) with
      | none =>
        have honce2 : (update_message_status ⟨l, runs, evs⟩ wamid s (some t) now1).2
            = ⟨updateFirst (matchesWamid wamid) (applyStatus s (some t) now1) l,
               runs, evs⟩ :=
          honce.trans (stats_notfound_mk _ runs evs _ now1 hq)
        have htwice : (update_message_status
              (update_message_status ⟨l, runs, evs⟩ wamid s (some t) now1).2
              wamid s (some t) now2).2
            = ⟨updateFirst (matchesWamid wamid) (applyStatus s (some t) now2)
                 (updateFirst (matchesWamid wamid) (applyStatus s (some t) now1) l),
               runs, evs⟩ := by
          rw [honce2]
          rw [update_found_mk _ runs evs wamid s (some t) now2
              (applyStatus s (some t) now1 m) hfind1]
          rw [applyStatus_runid, if_pos hrid]
          exact congrArg Prod.snd
            (congrArg (Prod.mk true) (stats_notfound_mk _ runs evs _ now2 hq))
        rw [htwice, honce2]
        exact ⟨hMview, rfl⟩
      | some r =>
        have honce2 : (update_message_status ⟨l, runs, evs⟩ wamid s (some t) now1).2
            = ⟨updateFirst (matchesWamid wamid) (applyStatus s (some t) now1) l,
               updateFirst (fun x => decide (x.id = m.campaign_run_id.getD 0))
                 (recountUpd (updateFirst (matchesWamid wamid)
                     (applyStatus s (some t) now1) l)
                   (m.campaign_run_id.getD 0) now1) runs, evs⟩ :=
          honce.trans (stats_found_mk _ runs evs _ now1 r hq)
        have hq2 : (updateFirst (fun x => decide (x.id = m.campaign_run_id.getD 0))
              (recountUpd (updateFirst (matchesWamid wamid)
                  (applyStatus s (some t) now1) l)
                (m.campaign_run_id.getD 0) now1) runs).find?
              (fun x => decide (x.id = m.campaign_run_id.getD 0))
            = some (recountUpd (updateFirst (matchesWamid wamid)
                  (applyStatus s (some t) now1) l)
                (m.campaign_run_id.getD 0) now1 r) := by
          rw [find?_updateFirst (fun (x : CampaignRun) => decide (x.id = m.campaign_run_id.getD 0))
              (recountUpd (updateFirst (matchesWamid wamid)
                  (applyStatus s (some t) now1) l)
                (m.campaign_run_id.getD 0) now1) (fun x => rfl), hq]
          rfl
        have htwice : (update_message_status
              (update_message_status ⟨l, runs, evs⟩ wamid s (some t) now1).2
              wamid s (some t) now2).2
            = ⟨updateFirst (matchesWamid wamid) (applyStatus s (some t) now2)
                 (updateFirst (matchesWamid wamid) (applyStatus s (some t) now1) l),
               updateFirst (fun x => decide (x.id = m.campaign_run_id.getD 0))
                 (recountUpd (updateFirst (matchesWamid wamid)
                     (applyStatus s (some t) now2)
                     (updateFirst (matchesWamid wamid) (applyStatus s (some t) now1) l))
                   (m.campaign_run_id.getD 0) now2)
                 (updateFirst (fun x => decide (x.id = m.campaign_run_id.getD 0))
                   (recountUpd (updateFirst (matchesWamid wamid)
                       (applyStatus s (some t) now1) l)
                     (m.campaign_run_id.getD 0) now1) runs), evs⟩ := by
          rw [honce2]
          rw [update_found_mk _ _ evs wamid s (some t) now2
              (applyStatus s (some t) now1 m) hfind1]
          rw [applyStatus_runid, if_pos hrid]
          exact congrArg Prod.snd
            (congrArg (Prod.mk true) (stats_found_mk _ _ evs _ now2
              (recountUpd (updateFirst (matchesWamid wamid)
                  (applyStatus s (some t) now1) l)
                (m.campaign_run_id.getD 0) now1 r) hq2))
        rw [htwice, honce2]
        refine ⟨hMview, ?_⟩
        show (updateFirst (fun x => decide (x.id = m.campaign_run_id.getD 0))
              (recountUpd (updateFirst (matchesWamid wamid)
                  (applyStatus s (some t) now2)
                  (updateFirst (matchesWamid wamid) (applyStatus s (some t) now1) l))
                (m.campaign_run_id.getD 0) now2)
              (updateFirst (fun x => decide (x.id = m.campaign_run_id.getD 0))
                (recountUpd (updateFirst (matchesWamid wamid)
                    (applyStatus s (some t) now1) l)
                  (m.campaign_run_id.getD 0) now1) runs)).map runView
          = (updateFirst (fun x => decide (x.id = m.campaign_run_id.getD 0))
              (recountUpd (updateFirst (matchesWamid wamid)
                  (applyStatus s (some t) now1) l)
                (m.campaign_run_id.getD 0) now1) runs).map runView
        rw [updateFirst_updateFirst (fun (x : CampaignRun) => decide (x.id = m.campaign_run_id.getD 0))
            (recountUpd (updateFirst (matchesWamid wamid)
                (applyStatus s (some t) now2)
                (updateFirst (matchesWamid wamid) (applyStatus s (some t) now1) l))
              (m.campaign_run_id.getD 0) now2)
            (recountUpd (updateFirst (matchesWamid wamid)
                (applyStatus s (some t) now1) l)
              (m.campaign_run_id.getD 0) now1) (fun x => rfl)]
        apply map_updateFirst_congr
        intro x
        simp only [recountUpd, runView, hMcnt]
    · have honce2 : (update_message_status ⟨l, runs, evs⟩ wamid s (some t) now1).2
          = ⟨updateFirst (matchesWamid wamid) (applyStatus s (some t) now1) l,
             runs, evs⟩ := by
        rw [update_found_mk l runs evs wamid s (some t) now1 m hfind, if_neg hrid]
      have htwice : (update_message_status
            (update_message_status ⟨l, runs, evs⟩ wamid s (some t) now1).2
            wamid s (some t) now2).2
          = ⟨updateFirst (matchesWamid wamid) (applyStatus s (some t) now2)
               (updateFirst (matchesWamid wamid) (applyStatus s (some t) now1) l),
             runs, evs⟩ := by
        rw [honce2]
        rw [update_found_mk _ runs evs wamid s (some t) now2
            (applyStatus s (some t) now1 m) hfind1]
        rw [applyStatus_runid, if_neg hrid]
      rw [htwice, honce2]
      exact ⟨hMview, rfl⟩

/-! ### Single-campaign evaluation lemmas for the two scheduler entry points -/

theorem check_pending_single (c : Campaign) (runs : List CampaignRun) (now : Nat)
    (hact : c.status = .ACTIVE) (hstart : c.start_date ≤ now) :
    check_pending_campaigns ⟨[c], runs⟩ now
      = if check_pending_should runs c now then
          ⟨[c], runs ++ [newRun c.id now runs.length]⟩
        else ⟨[c], runs⟩ := by
  unfold check_pending_campaigns
  have hsel : List.filter
      (fun k => decide (k.status = CampaignStatus.ACTIVE ∧ k.start_date ≤ now)) [c]
      = [c] := by
    simp [hact, hstart]
  dsimp only
  rw [hsel]
  rfl

theorem check_and_trigger_single (c : Campaign) (runs : List CampaignRun) (now : Nat)
    (hact : c.status = .ACTIVE) (hstart : c.start_date ≤ now) :
    check_and_trigger_campaigns ⟨[c], runs⟩ now
      = if (should_execute_campaign runs c now).1 then
          (⟨[(should_execute_campaign runs c now).2],
            runs ++ [newRun c.id now runs.length]⟩, 1)
        else (⟨[(should_execute_campaign runs c now).2], runs⟩, 0) := by
  unfold check_and_trigger_campaigns
  have hsel : List.filter
      (fun k => decide (k.status = CampaignStatus.ACTIVE ∧ k.start_date ≤ now)) [c]
      = [c] := by
    simp [hact, hstart]
  dsimp only
  rw [hsel]
  dsimp only [List.foldl]
  have hupd : updateFirst (fun k => decide (k.id = c.id))
      (fun _ => (should_execute_campaign runs c now).2) [c]
      = [(should_execute_campaign runs c now).2] := by
    simp [updateFirst]
  rw [hupd]
  rfl

theorem check_and_trigger_inactive (c : Campaign) (runs : List CampaignRun)
    (now : Nat) (hnsel : ¬(c.status = .ACTIVE ∧ c.start_date ≤ now)) :
    check_and_trigger_campaigns ⟨[c], runs⟩ now = (⟨[c], runs⟩, 0) := by
  unfold check_and_trigger_campaigns
  have hsel : List.filter
      (fun k => decide (k.status = CampaignStatus.ACTIVE ∧ k.start_date ≤ now)) [c]
      = [] := by
    simp only [List.filter_cons, List.filter_nil]
    rw [if_neg]
    simp [hnsel]
  dsimp only
  rw [hsel]
  rfl

theorem check_pending_should_recurring (rs : List CampaignRun) (c : Campaign)
    (tt ps : Nat) (hp : periodStart c.recurrence_type tt = some ps) :
    check_pending_should rs c tt
      = !(rs.any (fun r => decide (r.campaign_id = c.id ∧ ps ≤ r.scheduled_at))) := by
  unfold check_pending_should
  cases hrt : c.recurrence_type with
  | ONCE =>
    rw [hrt] at hp
    simp [periodStart] at hp
  | DAILY =>
    rw [hrt] at hp
    dsimp only
    rw [hp]
  | WEEKLY =>
    rw [hrt] at hp
    dsimp only
    rw [hp]
  | MONTHLY =>
    rw [hrt] at hp
    dsimp only
    rw [hp]

/-- Claim C1, counterexample: check_and_trigger_campaigns deduplicates only
against COMPLETED or RUNNING runs, so a second evaluation in the same day,
while the first run is still PENDING, creates a second run for the same
(campaign, period). -/
theorem check_and_trigger_duplicate_run_while_pending :
    ((check_and_trigger_campaigns
        (check_and_trigger_campaigns ⟨[dailyCampaign], []⟩ 600).1 700).1.runs.filter
      (fun r => decide (r.campaign_id = dailyCampaign.id
        ∧ startOfDay 600 ≤ r.scheduled_at))).length = 2 := by
  decide

/-- Claim C1 (amended): check_pending_campaigns, whose duplicate check counts
runs of any status, creates exactly one run per (campaign, period) over two
evaluations in the same period; check_and_trigger_campaigns skips creation
only when the period already holds a RUNNING or COMPLETED run. -/
theorem trigger_due_campaigns_once_per_period
    (c : Campaign) (runs0 : List CampaignRun) (t1 t2 ps : Nat)
    (hact : c.status = .ACTIVE) (hstart : c.start_date ≤ t1) (h12 : t1 ≤ t2)
    (hps1 : periodStart c.recurrence_type t1 = some ps)
    (hps2 : periodStart c.recurrence_type t2 = some ps)
    (hps_le : ps ≤ t1)
    (hnone : ∀ r ∈ runs0, r.campaign_id = c.id → r.scheduled_at < ps) :
    (((check_pending_campaigns (check_pending_campaigns ⟨[c], runs0⟩ t1) t2).runs.filter
        (fun r => decide (r.campaign_id = c.id ∧ ps ≤ r.scheduled_at))).length = 1)
    ∧ (∀ (runs1 : List CampaignRun) (now : Nat),
        has_run_in_current_period runs1 c now = true →
        (check_and_trigger_campaigns ⟨[c], runs1⟩ now).1.runs = runs1) := by
  have hrec : c.recurrence_type ≠ .ONCE := by
    intro h
    rw [h] at hps1
    simp [periodStart] at hps1
  have hany0 : runs0.any
      (fun r => decide (r.campaign_id = c.id ∧ ps ≤ r.scheduled_at)) = false := by
    rw [List.any_eq_false]
    intro r hr
    simp only [decide_eq_true_eq, not_and]
    intro h1 h2
    exact absurd h2 (Nat.not_le.mpr (hnone r hr h1))
  have hshould1 : check_pending_should runs0 c t1 = true := by
    rw [check_pending_should_recurring runs0 c t1 ps hps1, hany0]
    rfl
  have hstep1 : check_pending_campaigns ⟨[c], runs0⟩ t1
      = ⟨[c], runs0 ++ [newRun c.id t1 runs0.length]⟩ := by
    rw [check_pending_single c runs0 t1 hact hstart, hshould1]
    rfl
  have hshould2 : check_pending_should (runs0 ++ [newRun c.id t1 runs0.length]) c t2
      = false := by
    rw [check_pending_should_recurring _ c t2 ps hps2]
    have hany : (runs0 ++ [newRun c.id t1 runs0.length]).any
        (fun r => decide (r.campaign_id = c.id ∧ ps ≤ r.scheduled_at)) = true := by
      rw [List.any_append]
      simp [newRun, hps_le]
    rw [hany]
    rfl
  have hstep2 : check_pending_campaigns ⟨[c], runs0 ++ [newRun c.id t1 runs0.length]⟩ t2
      = ⟨[c], runs0 ++ [newRun c.id t1 runs0.length]⟩ := by
    rw [check_pending_single c _ t2 hact (le_trans hstart h12), hshould2]
    rfl
  constructor
  · rw [hstep1, hstep2]
    dsimp only
    rw [List.filter_append]
    have h1 : runs0.filter
        (fun r => decide (r.campaign_id = c.id ∧ ps ≤ r.scheduled_at)) = [] := by
      rw [List.filter_eq_nil_iff]
      intro r hr
      simp only [decide_eq_true_eq, not_and]
      intro h1 h2
      exact absurd h2 (Nat.not_le.mpr (hnone r hr h1))
    rw [h1]
    simp [newRun, hps_le]
  · intro runs1 now hhas
    by_cases hsel : c.status = .ACTIVE ∧ c.start_date ≤ now
    · rw [check_and_trigger_single c runs1 now hsel.1 hsel.2]
      have hsh : (should_execute_campaign runs1 c now).1 = false := by
        unfold should_execute_campaign
        split
        · rfl
        · cases hrt : c.recurrence_type with
          | ONCE =>
            exfalso
            unfold has_run_in_current_period at hhas
            rw [hrt] at hhas
            simp [periodStart] at hhas
          | DAILY =>
            dsimp only
            rw [hhas]
            rfl
          | WEEKLY =>
            dsimp only
            rw [hhas]
            rfl
          | MONTHLY =>
            dsimp only
            rw [hhas]
            rfl
      rw [hsh]
      rfl
    · rw [check_and_trigger_inactive c runs1 now hsel]

/-- Claim C1, witness of the amended theorem: one daily campaign, two
evaluations at minutes 600 and 700 of day 0, and a RUNNING run blocking
check_and_trigger_campaigns. -/
theorem trigger_due_campaigns_once_per_period_witness :
    (((check_pending_campaigns (check_pending_campaigns ⟨[dailyCampaign], []⟩ 600) 700).runs.filter
        (fun r => decide (r.campaign_id = dailyCampaign.id ∧ 0 ≤ r.scheduled_at))).length = 1)
    ∧ ((check_and_trigger_campaigns ⟨[dailyCampaign], [runningRun]⟩ 700).1.runs
        = [runningRun]) :=
  ⟨(trigger_due_campaigns_once_per_period dailyCampaign [] 600 700 0 rfl
      (by decide) (by decide) rfl rfl (by decide) (by intro r hr; cases hr)).1,
   (trigger_due_campaigns_once_per_period dailyCampaign [] 600 700 0 rfl
      (by decide) (by decide) rfl rfl (by decide) (by intro r hr; cases hr)).2
     [runningRun] 700 (by decide)⟩

/-- Claim C4, counterexample: the dispatcher send outcome
(MessageService.send_campaign_message) marks a message FAILED without touching
the owning run, so messages_failed stays 0 while one FAILED message of the
run exists. -/
theorem dispatcher_send_outcome_skips_run_counters :
    ((send_campaign_message_update reconDB 1 { success := false, error := some "invalid number" } 5).messages.map Message.status = [.FAILED])
    ∧ (countStatus (send_campaign_message_update reconDB 1 { success := false, error := some "invalid number" } 5).messages 1 .FAILED = 1)
    ∧ ((send_campaign_message_update reconDB 1 { success := false, error := some "invalid number" } 5).runs.map runView = [(0, 0, 0)]) := by
  refine ⟨rfl, rfl, rfl⟩

/-- Claim C4 (amended): after a reconciler callback
(MessageService.update_message_status) on a message owned by run rid, that
run's counters equal the full recount of its DELIVERED, READ and FAILED
messages; dispatcher send outcomes perform no such recount. -/
theorem update_message_status_recounts_owning_run
    (db : DB) (wamid : Option String) (s : String) (ts : Option Nat) (now : Nat)
    (m : Message) (rid : Nat)
    (hfind : db.messages.find? (matchesWamid wamid) = some m)
    (hrid : m.campaign_run_id = some rid) (hrid0 : rid ≠ 0) :
    ∀ r', (update_message_status db wamid s ts now).2.runs.find?
        (fun x => decide (x.id = rid)) = some r' →
      r'.messages_delivered
          = countStatus (update_message_status db wamid s ts now).2.messages rid .DELIVERED
        ∧ r'.messages_read
          = countStatus (update_message_status db wamid s ts now).2.messages rid .READ
        ∧ r'.messages_failed
          = countStatus (update_message_status db wamid s ts now).2.messages rid .FAILED := by
  obtain ⟨l, runs, evs⟩ := db
  have hgd : m.campaign_run_id.getD 0 = rid := by
    rw [hrid]
    rfl
  have hne : m.campaign_run_id.getD 0 ≠ 0 := by
    rw [hgd]
    exact hrid0
  intro r' hr'
  rw [update_found_mk l runs evs wamid s ts now m hfind, if_pos hne, hgd] at hr' ⊢
  cases hq : runs.find? (fun x => decide (x.id = rid)) with
  | none =>
    rw [stats_notfound_mk _ runs evs rid now hq] at hr'
    dsimp only at hr'
    rw [hq] at hr'
    exact Option.noConfusion hr'
  | some r =>
    rw [stats_found_mk _ runs evs rid now r hq] at hr' ⊢
    dsimp only at hr' ⊢
    rw [find?_updateFirst (fun (x : CampaignRun) => decide (x.id = rid))
        (recountUpd (updateFirst (matchesWamid wamid) (applyStatus s ts now) l) rid now)
        (fun x => rfl), hq] at hr'
    rw [Option.map_some'] at hr'
    injection hr' with hr'
    rw [← hr']
    exact ⟨rfl, rfl, rfl⟩

/-- Claim C4, witness of the amended theorem on the concrete reconciler
database: a failed callback on the message of run 1 leaves the run with
messages_failed equal to the recount 1. -/
theorem update_message_status_recounts_owning_run_witness :
    (reconDB.messages.find? (matchesWamid (some "w")) = some callbackMessage)
    ∧ (callbackMessage.campaign_run_id = some 1)
    ∧ ((1 : Nat) ≠ 0)
    ∧ (({ id := 1, campaign_id := 1, scheduled_at := 0, status := .RUNNING, messages_failed := 1, updated_at := 4 } : CampaignRun).messages_delivered
          = countStatus (update_message_status reconDB (some "w") "failed" (some 3) 4).2.messages 1 .DELIVERED
        ∧ ({ id := 1, campaign_id := 1, scheduled_at := 0, status := .RUNNING, messages_failed := 1, updated_at := 4 } : CampaignRun).messages_read
          = countStatus (update_message_status reconDB (some "w") "failed" (some 3) 4).2.messages 1 .READ
        ∧ ({ id := 1, campaign_id := 1, scheduled_at := 0, status := .RUNNING, messages_failed := 1, updated_at := 4 } : CampaignRun).messages_failed
          = countStatus (update_message_status reconDB (some "w") "failed" (some 3) 4).2.messages 1 .FAILED) :=
  ⟨rfl, rfl, by decide,
   update_message_status_recounts_owning_run reconDB (some "w") "failed" (some 3) 4
     callbackMessage 1 rfl rfl (by decide)
     { id := 1, campaign_id := 1, scheduled_at := 0, status := .RUNNING, messages_failed := 1, updated_at := 4 }
     (by decide)⟩

/-- Claim C5 (confirmed): a webhook request whose signature does not verify is
answered 401 and the database is returned untouched — verification happens
before any state mutation. -/
theorem webhook_rejects_bad_signature_without_mutation
    (hmacHex : String → String → String) (app_secret : Option String)
    (db : DB) (raw : String) (signature : String) (payload : Webhooks.Payload)
    (now : Nat)
    (hbad : Webhooks.verify_webhook_signature hmacHex app_secret raw signature = false) :
    Webhooks.whatsapp_webhook hmacHex app_secret db raw signature payload now
      = (401, db) := by
  unfold Webhooks.whatsapp_webhook
  rw [hbad]
  rfl

/-- Claim C5, witness: a present secret and an empty signature header fail
verification, and the handler answers 401 leaving the database unchanged. -/
theorem webhook_rejects_bad_signature_without_mutation_witness :
    (Webhooks.verify_webhook_signature (fun _ _ => "x") (some "secret") "payload" "" = false)
    ∧ (Webhooks.whatsapp_webhook (fun _ _ => "x") (some "secret") reconDB "payload" "" { entries := [] } 7 = (401, reconDB)) :=
  ⟨rfl, webhook_rejects_bad_signature_without_mutation (fun _ _ => "x")
    (some "secret") reconDB "payload" "" { entries := [] } 7 rfl⟩

/-- Claim C6, counterexample: a daily campaign triggered at minute 720 of day
0 gets a run with scheduled_at = 720, the wall-clock tick time, not the
period boundary startOfDay 720 = 0. -/
theorem scheduled_at_not_period_boundary :
    ((check_and_trigger_campaigns ⟨[dailyCampaign], []⟩ 720).1.runs.map CampaignRun.scheduled_at = [720])
    ∧ startOfDay 720 = 0
    ∧ (720 : Nat) ≠ 0 := by
  refine ⟨rfl, rfl, by decide⟩

/-- Claim C6 (amended): every run the scheduler creates carries
scheduled_at = now, the wall-clock evaluation time; deduplication still keys
on the period only because the existing-run check compares
scheduled_at >= period_start. -/
theorem scheduler_creates_run_at_wall_clock
    (c : Campaign) (runs : List CampaignRun) (now : Nat)
    (hact : c.status = .ACTIVE) (hstart : c.start_date ≤ now)
    (hshould : (should_execute_campaign runs c now).1 = true) :
    (check_and_trigger_campaigns ⟨[c], runs⟩ now).1.runs
      = runs ++ [newRun c.id now runs.length] := by
  rw [check_and_trigger_single c runs now hact hstart, hshould]
  rfl

/-- Claim C6, witness: the daily campaign triggered at minute 720 appends
exactly the run stamped with the wall clock 720. -/
theorem scheduler_creates_run_at_wall_clock_witness :
    ((should_execute_campaign [] dailyCampaign 720).1 = true)
    ∧ ((check_and_trigger_campaigns ⟨[dailyCampaign], []⟩ 720).1.runs
        = [] ++ [newRun dailyCampaign.id 720 0]) :=
  ⟨by decide, scheduler_creates_run_at_wall_clock dailyCampaign [] 720 rfl
    (by decide) (by decide)⟩

/-- Claim C7 (amended): check_and_trigger_campaigns marks an expired ACTIVE
campaign COMPLETED, creates no run, and never finds it due again;
check_pending_campaigns performs no end_date check at all. -/
theorem check_and_trigger_expires_campaign
    (c : Campaign) (runs : List CampaignRun) (now e : Nat)
    (hact : c.status = .ACTIVE) (hstart : c.start_date ≤ now)
    (hend : c.end_date = some e) (hlt : e < now) :
    (check_and_trigger_campaigns ⟨[c], runs⟩ now
        = (⟨[{ c with status := .COMPLETED }], runs⟩, 0))
    ∧ ∀ t, check_and_trigger_campaigns ⟨[{ c with status := .COMPLETED }], runs⟩ t
        = (⟨[{ c with status := .COMPLETED }], runs⟩, 0) := by
  constructor
  · rw [check_and_trigger_single c runs now hact hstart]
    have hdec : should_execute_campaign runs c now
        = (false, { c with status := .COMPLETED }) := by
      unfold should_execute_campaign
      rw [hend]
      simp [hlt]
    rw [hdec]
    rfl
  · intro t
    apply check_and_trigger_inactive
    intro h
    exact absurd h.1 (by simp)

/-- Claim C7, witness: the expired daily campaign is completed with no run at
minute 2000, and a later tick at minute 5000 changes nothing. -/
theorem check_and_trigger_expires_campaign_witness :
    (expiredCampaign.end_date = some 0)
    ∧ ((0 : Nat) < 2000)
    ∧ (check_and_trigger_campaigns ⟨[expiredCampaign], []⟩ 2000
        = (⟨[{ expiredCampaign with status := .COMPLETED }], []⟩, 0))
    ∧ (check_and_trigger_campaigns ⟨[{ expiredCampaign with status := .COMPLETED }], []⟩ 5000
        = (⟨[{ expiredCampaign with status := .COMPLETED }], []⟩, 0)) :=
  ⟨rfl, by decide,
   (check_and_trigger_expires_campaign expiredCampaign [] 2000 0 rfl (by decide) rfl (by decide)).1,
   (check_and_trigger_expires_campaign expiredCampaign [] 2000 0 rfl (by decide) rfl (by decide)).2 5000⟩

/-- Claim C7, counterexample: check_pending_campaigns never checks end_date —
an ACTIVE daily campaign whose end_date (minute 0) is long past still gets a
run created at minute 2000, and its status stays ACTIVE. -/
theorem check_pending_runs_after_end_date :
    (expiredCampaign.end_date = some 0)
    ∧ ((0 : Nat) < 2000)
    ∧ ((check_pending_campaigns ⟨[expiredCampaign], []⟩ 2000).runs.length = 1)
    ∧ ((check_pending_campaigns ⟨[expiredCampaign], []⟩ 2000).campaigns = [expiredCampaign]) := by
  refine ⟨rfl, by decide, rfl, rfl⟩

/-- Claim C8 (code_bug): the dispatcher contact query of execute_campaign_run
filters only on tenant, soft-deletion and segment — an opted-out contact
passes the filter and is messaged. -/
theorem dispatch_query_includes_opted_out_contact :
    optedOutContact.opted_out = true
    ∧ optedOutContact.is_deleted = false
    ∧ get_target_contacts [optedOutContact] marketingCampaign = [optedOutContact] := by
  refine ⟨rfl, rfl, by decide⟩

/-- Claim C9, counterexample: a transient HTTP 500 from the provider comes
back as an unsuccessful result dict and the send task marks the message
FAILED immediately — no retry is scheduled, contradicting retry-with-backoff
for transient failures. -/
theorem transient_500_not_retried :
    ((send_template_message true "p" "t" (.statusError 500 "Internal Server Error" none)).success = false)
    ∧ (send_campaign_message { id := 1, status := .QUEUED } true
        (send_template_message true "p" "t" (.statusError 500 "Internal Server Error" none)) 5
      = .done { id := 1, status := .FAILED, failure_reason := some "Internal Server Error", updated_at := 5 }) := by
  refine ⟨rfl, rfl⟩

/-- Claim C9 (amended): every provider failure surfaced as an unsuccessful
result — transient or permanent alike — marks the message FAILED immediately
with the error reason and no retry; only an exception raised in the task body
schedules a Celery retry, with constant countdown 60 and max_retries 3, the
message having already been marked FAILED. -/
theorem provider_failure_fails_without_retry
    (m : Message) (result : SendResult) (now : Nat)
    (hfail : result.success = false) :
    (send_campaign_message m true result now
      = .done { m with status := .FAILED, failure_reason := some (result.error.getD "Unknown error"), updated_at := now })
    ∧ ∀ e, send_campaign_message_exn m e now
        = .retryScheduled { m with status := .FAILED, failure_reason := some e, updated_at := now } 60 3 := by
  constructor
  · unfold send_campaign_message
    rw [hfail]
    rfl
  · intro e
    rfl

/-- Claim C9, witness: a rate-limit style unsuccessful result fails with no
retry; a raised exception retries with the constant 60-second countdown. -/
theorem provider_failure_fails_without_retry_witness :
    (({ success := false, error := some "Rate limit hit" } : SendResult).success = false)
    ∧ (send_campaign_message { id := 1, status := .QUEUED } true { success := false, error := some "Rate limit hit" } 9
        = .done { id := 1, status := .FAILED, failure_reason := some "Rate limit hit", updated_at := 9 })
    ∧ (send_campaign_message_exn { id := 1, status := .QUEUED } "db down" 9
        = .retryScheduled { id := 1, status := .FAILED, failure_reason := some "db down", updated_at := 9 } 60 3) :=
  ⟨rfl,
   (provider_failure_fails_without_retry { id := 1, status := .QUEUED }
     { success := false, error := some "Rate limit hit" } 9 rfl).1,
   (provider_failure_fails_without_retry { id := 1, status := .QUEUED }
     { success := false, error := some "Rate limit hit" } 9 rfl).2 "db down"⟩

/-- Claim C10 (confirmed): with the app secret unset (None) or empty,
verify_webhook_signature accepts every payload and every signature value,
including a missing header — no authenticity check happens at all. -/
theorem verify_signature_accepts_all_without_secret :
    ∀ (hmacHex : String → String → String) (payload signature : String),
      Webhooks.verify_webhook_signature hmacHex none payload signature = true
      ∧ Webhooks.verify_webhook_signature hmacHex (some "") payload signature = true :=
  fun _ _ _ => ⟨rfl, rfl⟩

end ClaimTheorems

end EkTola
